import Mathlib

/-!
Verification of the pebl-test climbing-route frontend against its
specification.  The definitions below are a shallow embedding of the
TypeScript source under `frontend/app/` (the selection page
`select/[id]/page.tsx`, the upload page `page.tsx`) together with a
spec-modelled duplicate matcher for the backend scan that is specified in
§4.5 of the design document.  JavaScript strings are modelled as Lean
`String` (lists of characters), JS `number` coordinates as `ℚ`, a JS
`Set<number>` as `Finset ℕ`, and JS objects as structures.
-/

/-- Bounding box of a detected hold, from the `BoundingBox` interface in
`select/[id]/page.tsx`: pixel coordinates in the canonical resized image,
with derived width, height and center. -/
structure BoundingBox where
  x1 : ℚ
  y1 : ℚ
  x2 : ℚ
  y2 : ℚ
  width : ℚ
  height : ℚ
  centerX : ℚ
  centerY : ℚ
  deriving DecidableEq, Repr

/-- A detected hold, from the `Detection` interface in
`select/[id]/page.tsx`.  The TypeScript field `class` is a Lean keyword and
is rendered `cls` here. -/
structure Detection where
  id : ℕ
  color : String
  confidence : ℚ
  cls : String
  bbox : BoundingBox
  deriving DecidableEq, Repr

/- ### Session-storage handoff (upload page → selection page) -/

/-- JS `sessionStorage` modelled as an association list; `setItem` prepends,
so `getItem` (first match) sees the latest write for a key. -/
def sessionSetItem (store : List (String × String)) (k v : String) :
    List (String × String) :=
  (k, v) :: store

/-- `sessionStorage.getItem`: the value of the most recent `setItem` for the
key, if any. -/
def sessionGetItem (store : List (String × String)) (k : String) :
    Option String :=
  (store.find? (fun p => p.1 == k)).map (fun p => p.2)

/-- The id generated by `handleUpload` in `app/page.tsx`:
`const id = ` followed by the template `detection_` and `Date.now()`. -/
def uploadGeneratedId (ts : ℕ) : String :=
  "detection_" ++ toString ts

/-- The sessionStorage key used by `handleUpload`:
`sessionStorage.setItem` with the template `detection_` followed by `id`. -/
def uploadStoreKey (ts : ℕ) : String :=
  "detection_" ++ uploadGeneratedId ts

/-- The lookup key used by the selection-page load effect:
`sessionStorage.getItem` with the template `detection_` followed by
`params.id`. -/
def selectLookupKey (paramId : String) : String :=
  "detection_" ++ paramId

/-- `handleUpload` in `app/page.tsx`: stores the detection payload under
`uploadStoreKey ts` and navigates to `/select/` followed by the generated
id (which becomes `params.id` on the selection page).  Returns the updated
store and the id carried in the URL. -/
def handleUpload (store : List (String × String)) (ts : ℕ)
    (payload : String) : List (String × String) × String :=
  (sessionSetItem store (uploadStoreKey ts) payload, uploadGeneratedId ts)

/- ### Spec-modelled duplicate matcher -/

/-- Modelled from the spec: the backend `DuplicateMatcher.find_match`
(app.py) is not under src/.  Following §4.5, the scan walks the stored
routes in listing order, invokes the external comparator (`compare`, a
boolean verdict) pairwise, and short-circuits at the first match.  The
second component records the routes actually handed to the comparator, in
the order they were compared, so that "no comparison call is made after the
first match" is visible in the model. -/
def find_match {α : Type} (compare : α → Bool) :
    List α → Option α × List α
  | [] => (none, [])
  | r :: rs =>
    if compare r then (some r, [r])
    else
      let p := find_match compare rs
      (p.1, r :: p.2)

/- ### Base-image round trip (`getBase64Image`) -/

/-- JS `String.prototype.split(sep)` on a single-character separator,
modelled on the character list of the string: splitting an empty string
yields one empty field, and each separator occurrence starts a new field. -/
def jsSplit (sep : Char) : List Char → List (List Char)
  | [] => [[]]
  | c :: rest =>
    if c = sep then [] :: jsSplit sep rest
    else
      match jsSplit sep rest with
      | [] => [[c]]
      | t :: ts => (c :: t) :: ts

/-- The data URI the selection-page load effect builds from the stored
payload: the literal `data:image/jpeg;base64,` followed by `data.image`. -/
def dataUri (image : String) : String := "data:image/jpeg;base64," ++ image

/-- `getBase64Image` from `select/[id]/page.tsx`: returns the empty string
for an unset `imageUrl`; otherwise strips everything up to the first comma
when the URL contains one (JS `imageUrl.split(",")[1]`), and returns the
URL unchanged when it does not. -/
def getBase64Image (imageUrl : String) : String :=
  if imageUrl = "" then ""
  else if imageUrl.data.contains ',' then
    String.mk ((jsSplit ',' imageUrl.data).getD 1 [])
  else imageUrl

/- ### Selection-page state and handlers (`select/[id]/page.tsx`) -/

/-- Whether a point lies inside the bounding box of a detection: the test
`x >= x1 && x <= x2 && y >= y1 && y <= y2` from `getDetectionAtPoint`. -/
def containsPoint (d : Detection) (x y : ℚ) : Bool :=
  x ≥ d.bbox.x1 && x ≤ d.bbox.x2 && y ≥ d.bbox.y1 && y ≤ d.bbox.y2

/-- `getDetectionAtPoint` from `select/[id]/page.tsx`: walks the detection
list in order and returns the first detection whose bounding box contains
the point, or null (`none`) when no box does. -/
def getDetectionAtPoint (detections : List Detection) (x y : ℚ) :
    Option Detection :=
  match detections with
  | [] => none
  | d :: rest =>
    if containsPoint d x y then some d else getDetectionAtPoint rest x y

/-- The selection updater inside `handleMouseDown`: copy the previous set,
then delete the id if present, otherwise add it. -/
def toggleSelection (prev : Finset ℕ) (i : ℕ) : Finset ℕ :=
  if i ∈ prev then prev.erase i else insert i prev

/-- `handleMouseDown`: hit-test the click point; when a detection is hit,
toggle its id in the selection set, otherwise leave the set unchanged. -/
def handleMouseDown (detections : List Detection) (x y : ℚ)
    (prev : Finset ℕ) : Finset ℕ :=
  match getDetectionAtPoint detections x y with
  | none => prev
  | some d => toggleSelection prev d.id

/-- The gemini_response object the client reads from the `/select`
response. -/
structure GeminiResponse where
  explanation : Option String
  full_response : Option String
  deriving DecidableEq, Repr

/-- The fields of the `/select/{id}` response body that `handleSubmit`
reads on the success path. -/
structure SelectResponse where
  success : Bool
  is_match : Bool
  matching_image_filename : Option String
  gemini_response : Option GeminiResponse
  deriving DecidableEq, Repr

/-- The component state of `SelectPage` that the claims are about: the
`useState` hooks of the page. -/
structure PageState where
  imageUrl : String
  detections : List Detection
  imageLoaded : Bool
  selectedIds : Finset ℕ
  submitting : Bool
  hoveredId : Option ℕ
  geminiResponse : Option String
  matchingImageUrl : String
  deriving DecidableEq

/-- JS truthiness of an optional string field: undefined and the empty
string are falsy, every other string is truthy. -/
def strTruthy : Option String → Bool
  | none => false
  | some s => !(s == "")

/-- The explanation recorded by `handleSubmit`:
`data.gemini_response.explanation || data.gemini_response.full_response`
with the empty string as the final fallback. -/
def explanationValue (g : GeminiResponse) : String :=
  if strTruthy g.explanation then g.explanation.getD ""
  else if strTruthy g.full_response then g.full_response.getD "" else ""

/-- The explanation-recording step `handleSubmit` performs on both result
branches: when `data.gemini_response && data.gemini_response.explanation`
is truthy, `setGeminiResponse` records the explanation value, otherwise the
state is untouched (the source duplicates this block inline on each
branch). -/
def applyGemini (gr : Option GeminiResponse) (s : PageState) : PageState :=
  match gr with
  | some g =>
    if strTruthy g.explanation then
      { s with geminiResponse := some (explanationValue g) }
    else s
  | none => s

/-- The state updates `handleSubmit` performs on a `response.ok` body:
when `data.success` and `data.is_match && data.matching_image_filename`
are truthy, set `matchingImageUrl` to the backend URL followed by
`/routes/images/` and the filename, then record the explanation; on the
no-match branch only the explanation is recorded; when `data.success` is
false the state is untouched. -/
def handleSubmitResponse (backendUrl : String) (data : SelectResponse)
    (s : PageState) : PageState :=
  if data.success then
    if data.is_match && strTruthy data.matching_image_filename then
      applyGemini data.gemini_response
        { s with matchingImageUrl :=
          backendUrl ++ "/routes/images/" ++ data.matching_image_filename.getD "" }
    else
      applyGemini data.gemini_response s
  else s

/-- The JSON body `handleSubmit` sends to `/select/{id}`: exactly the four
fields of the object literal in the fetch call. -/
structure SelectRequest where
  selected_detections : List Detection
  all_detections : List Detection
  selected_ids : List ℕ
  image_base64 : String
  deriving DecidableEq, Repr

/-- The request body built by `handleSubmit`: `selected_detections` is
`detections.filter` of membership of the id in `selectedIds`,
`all_detections` is the whole list, `selected_ids` is `Array.from` of the
selection set (an enumeration of its elements; the model enumerates in
ascending order since `Finset` forgets JS insertion order), and
`image_base64` is `getBase64Image()`. -/
def buildSelectRequest (detections : List Detection)
    (selectedIds : Finset ℕ) (imageUrl : String) : SelectRequest :=
  { selected_detections :=
      detections.filter (fun d => decide (d.id ∈ selectedIds))
    all_detections := detections
    selected_ids := selectedIds.sort (· ≤ ·)
    image_base64 := getBase64Image imageUrl }

/-- The guarded request construction in `handleSubmit`: the early return
`if (selectedIds.size === 0)` fires before any fetch, so no request is
produced for an empty selection. -/
def handleSubmitRequest (detections : List Detection)
    (selectedIds : Finset ℕ) (imageUrl : String) : Option SelectRequest :=
  if selectedIds.card = 0 then none
  else some (buildSelectRequest detections selectedIds imageUrl)

/-- The submit button disabled condition:
`selectedIds.size === 0 || submitting`. -/
def submitDisabled (s : PageState) : Bool :=
  decide (s.selectedIds.card = 0) || s.submitting

/-- The full state effect of `handleSubmit` for one response: the early
return for an empty selection leaves the state untouched; otherwise
`submitting` is raised, the response updates are applied, and `submitting`
is cleared in the `finally` block. -/
def pageSubmit (backendUrl : String) (data : SelectResponse)
    (s : PageState) : PageState :=
  if s.selectedIds.card = 0 then s
  else
    { handleSubmitResponse backendUrl data { s with submitting := true }
        with submitting := false }

/-- `handleMouseDown` as a transition on the page state. -/
def pageMouseDown (s : PageState) (x y : ℚ) : PageState :=
  { s with selectedIds := handleMouseDown s.detections x y s.selectedIds }

/-- `handleMouseMove` as a transition on the page state: sets `hoveredId`
to the id of the detection under the cursor, or null. -/
def pageMouseMove (s : PageState) (x y : ℚ) : PageState :=
  { s with hoveredId := (getDetectionAtPoint s.detections x y).map Detection.id }

/-- `handleMouseLeave`: clears `hoveredId`. -/
def pageMouseLeave (s : PageState) : PageState :=
  { s with hoveredId := none }

/-- The Unselect All button: `setSelectedIds(new Set())`. -/
def pageUnselectAll (s : PageState) : PageState :=
  { s with selectedIds := ∅ }

/-- The selection-state invariant: every selected id is the id of some
loaded detection. -/
def selInvariant (detections : List Detection) (selected : Finset ℕ) : Prop :=
  ∀ i ∈ selected, ∃ d ∈ detections, d.id = i

/- ### Canvas label geometry (`drawCanvas`) -/

/-- An axis-aligned rectangle passed to `ctx.fillRect`. -/
structure CanvasRect where
  x : ℚ
  y : ℚ
  w : ℚ
  h : ℚ
  deriving DecidableEq, Repr

/-- The color-label background drawn by `drawCanvas`:
`ctx.fillRect(x1, y1 - 20, 60, 20)`. -/
def labelBackgroundRect (b : BoundingBox) : CanvasRect :=
  ⟨b.x1, b.y1 - 20, 60, 20⟩

/-- The color-label text anchor drawn by `drawCanvas`:
`ctx.fillText(detection.color, x1 + 5, y1 - 5)`. -/
def labelTextPos (b : BoundingBox) : ℚ × ℚ :=
  (b.x1 + 5, b.y1 - 5)

/-- A rectangle lies inside a W-by-H canvas. -/
def rectInCanvas (W H : ℚ) (r : CanvasRect) : Prop :=
  0 ≤ r.x ∧ 0 ≤ r.y ∧ r.x + r.w ≤ W ∧ r.y + r.h ≤ H

/-- A point lies inside a W-by-H canvas. -/
def pointInCanvas (W H : ℚ) (p : ℚ × ℚ) : Prop :=
  0 ≤ p.1 ∧ p.1 ≤ W ∧ 0 ≤ p.2 ∧ p.2 ≤ H

/-- A bounding box whose top edge touches the top of the image: its y1 is
inside the image bounds but smaller than the 20-pixel label height. -/
def topEdgeBox : BoundingBox :=
  ⟨0, 0, 50, 50, 50, 50, 25, 25⟩

/-- A bounding box comfortably inside the canvas, at least 20 pixels below
the top edge. -/
def midBox : BoundingBox :=
  ⟨10, 100, 60, 150, 50, 50, 35, 125⟩

/-- Sample detections used by concrete witnesses. -/
def sampleDetection0 : Detection :=
  { id := 0, color := "red", confidence := 1, cls := "hold",
    bbox := ⟨0, 30, 50, 80, 50, 50, 25, 55⟩ }

/-- A second sample detection with a disjoint bounding box. -/
def sampleDetection1 : Detection :=
  { id := 1, color := "blue", confidence := 1, cls := "hold",
    bbox := ⟨100, 130, 150, 180, 50, 50, 125, 155⟩ }

/-- A sample page state with both sample detections loaded and nothing
selected. -/
def samplePageState : PageState :=
  { imageUrl := dataUri "QUJD"
    detections := [sampleDetection0, sampleDetection1]
    imageLoaded := true
    selectedIds := ∅
    submitting := false
    hoveredId := none
    geminiResponse := none
    matchingImageUrl := "" }

/-- A sample matched response from `/select/{id}`. -/
def sampleMatchResponse : SelectResponse :=
  { success := true
    is_match := true
    matching_image_filename := some "blue_20251011_120000_abcd.jpg"
    gemini_response := some
      { explanation := some "Same holds highlighted.", full_response := none } }

/-- Splitting a list free of the separator yields the single field. -/
theorem jsSplit_of_not_mem (sep : Char) (l : List Char) (h : sep ∉ l) :
    jsSplit sep l = [l] := by
  induction l with
  | nil => rfl
  | cons c rest ih =>
    have hc : ¬ c = sep := fun hcs => h (by simp [hcs])
    have hr := ih (fun hm => h (by simp [hm]))
    simp [jsSplit, hc, hr]

/-- Splitting at the first separator occurrence peels off the head field. -/
theorem jsSplit_append_sep (sep : Char) (a b : List Char) (h : sep ∉ a) :
    jsSplit sep (a ++ sep :: b) = a :: jsSplit sep b := by
  induction a with
  | nil => simp [jsSplit]
  | cons c rest ih =>
    have hc : ¬ c = sep := fun hcs => h (by simp [hcs])
    have hr := ih (fun hm => h (by simp [hm]))
    simp [jsSplit, hc, hr]

/-- Claim C4: the base image round-trips through the client unchanged: for
any payload image string without a comma (base64 text never contains one),
`getBase64Image` applied to the data URI the load effect builds returns
exactly the payload image, so the `image_base64` field submitted equals the
stored `image` field. -/
theorem getBase64Image_round_trips (image : String) (h : ',' ∉ image.data) :
    getBase64Image (dataUri image) = image := by
  have hdata : (dataUri image).data
      = "data:image/jpeg;base64".data ++ ',' :: image.data := by
    simp [dataUri, String.data_append]
  have hne : ¬ dataUri image = "" := by
    intro heq
    have h2 := congrArg String.data heq
    rw [hdata] at h2
    simp at h2
  have hc : (dataUri image).data.contains ',' = true := by
    rw [hdata]
    simp [List.contains]
  rw [getBase64Image]
  simp only [hne, if_false, hc, if_true]
  rw [hdata, jsSplit_append_sep _ _ _ (by decide), jsSplit_of_not_mem _ _ h]
  rfl

/-- Witness for C4 at a concrete base64 payload. -/
theorem getBase64Image_round_trips_witness :
    getBase64Image (dataUri "QUJD") = "QUJD" :=
  getBase64Image_round_trips "QUJD" (by decide)

/-- Claim C10: the session-storage handoff round-trips: the selection page
lookup key built from the navigated id equals the key the upload page
stored under, exactly, and reading it back yields the stored detection
payload. -/
theorem sessionStorage_handoff_round_trips
    (store : List (String × String)) (ts : ℕ) (payload : String) :
    selectLookupKey (handleUpload store ts payload).2 = uploadStoreKey ts ∧
    sessionGetItem (handleUpload store ts payload).1
      (selectLookupKey (handleUpload store ts payload).2) = some payload := by
  constructor
  · rfl
  · simp [handleUpload, sessionGetItem, sessionSetItem, selectLookupKey,
      uploadStoreKey, List.find?]

/-- Claim C1: the duplicate scan visits stored routes in listing order and
stops at the first route the comparator reports as a match: that route is
the matched route, and no route after it is ever handed to the comparator
(the comparison trace is exactly the non-matching head of the list followed
by the first match). -/
theorem find_match_stops_at_first_match {α : Type} (compare : α → Bool)
    (l₁ l₂ : List α) (a : α)
    (h₁ : ∀ x ∈ l₁, compare x = false) (h₂ : compare a = true) :
    (find_match compare (l₁ ++ a :: l₂)).1 = some a ∧
    (find_match compare (l₁ ++ a :: l₂)).2 = l₁ ++ [a] := by
  induction l₁ with
  | nil => simp [find_match, h₂]
  | cons x xs ih =>
    have hx : compare x = false := h₁ x (by simp)
    have ih' := ih (fun y hy => h₁ y (by simp [hy]))
    simp [find_match, hx, ih'.1, ih'.2]

/-- Witness for C1, instantiating the spec scenario: for a stored list
`[A, B, C]` (here `[0, 1, 2]`) where `A` and `C` would both report a match,
the matched route is `A` and `C` is never compared (the trace is `[A]`). -/
theorem find_match_stops_at_first_match_witness :
    (find_match (fun n => n == 0 || n == 2) ([] ++ 0 :: [1, 2])).1 = some 0 ∧
    (find_match (fun n => n == 0 || n == 2) ([] ++ 0 :: [1, 2])).2 = [] ++ [0] :=
  find_match_stops_at_first_match (fun n => n == 0 || n == 2) [] [1, 2] 0
    (by intro x hx; simp at hx) (by decide)

/-- Hit-testing walks the list in order: `getDetectionAtPoint` is exactly
the first detection (in listing order) whose bounding box contains the
point. -/
theorem getDetectionAtPoint_eq_find (detections : List Detection) (x y : ℚ) :
    getDetectionAtPoint detections x y
      = detections.find? (fun d => containsPoint d x y) := by
  induction detections with
  | nil => rfl
  | cons d rest ih =>
    by_cases hc : containsPoint d x y <;>
      simp [getDetectionAtPoint, List.find?, hc, ih]

/-- Claim C8: selection toggling is an involution: toggling an id flips
exactly its own membership in the selection set, leaves every other id
unchanged, and toggling twice restores the original set. -/
theorem toggleSelection_involutive (S : Finset ℕ) (i : ℕ) :
    (i ∈ toggleSelection S i ↔ i ∉ S) ∧
    (∀ j, j ≠ i → (j ∈ toggleSelection S i ↔ j ∈ S)) ∧
    toggleSelection (toggleSelection S i) i = S := by
  refine ⟨?_, ?_, ?_⟩
  · by_cases h : i ∈ S <;> simp [toggleSelection, h]
  · intro j hj
    by_cases h : i ∈ S <;> simp [toggleSelection, h, hj]
  · by_cases h : i ∈ S
    · have h1 : toggleSelection S i = S.erase i := if_pos h
      have h2 : toggleSelection (S.erase i) i = insert i (S.erase i) :=
        if_neg (Finset.not_mem_erase i S)
      rw [h1, h2, Finset.insert_erase h]
    · have h1 : toggleSelection S i = insert i S := if_neg h
      have h2 : toggleSelection (insert i S) i = (insert i S).erase i :=
        if_pos (Finset.mem_insert_self i S)
      rw [h1, h2, Finset.erase_insert h]

/-- Witness for C8 at the concrete set `{1, 2}` and id `2`: the other id
`1` is untouched and the double toggle restores the set. -/
theorem toggleSelection_involutive_witness :
    (1 ∈ toggleSelection {1, 2} 2 ↔ 1 ∈ ({1, 2} : Finset ℕ)) ∧
    toggleSelection (toggleSelection {1, 2} 2) 2 = {1, 2} :=
  ⟨(toggleSelection_involutive {1, 2} 2).2.1 1 (by decide),
   (toggleSelection_involutive {1, 2} 2).2.2⟩

/-- Claim C9: the selection-state invariant (every selected id belongs to
some loaded detection) holds in the initial empty state and is preserved by
every selection operation: `handleMouseDown` only toggles the id of the
detection returned by `getDetectionAtPoint`, which is the first detection
in listing order whose box contains the point (or null), and Unselect All
resets to the empty set. -/
theorem selection_state_invariant (detections : List Detection) (x y : ℚ) :
    getDetectionAtPoint detections x y
      = detections.find? (fun d => containsPoint d x y) ∧
    selInvariant detections ∅ ∧
    (∀ S, selInvariant detections S →
      selInvariant detections (handleMouseDown detections x y S)) ∧
    (∀ s : PageState, selInvariant s.detections (pageUnselectAll s).selectedIds) := by
  refine ⟨getDetectionAtPoint_eq_find detections x y, ?_, ?_, ?_⟩
  · intro i hi; simp at hi
  · intro S hS
    cases hd : getDetectionAtPoint detections x y with
    | none => simpa [handleMouseDown, hd] using hS
    | some d =>
      have hdm : d ∈ detections :=
        List.mem_of_find?_eq_some
          ((getDetectionAtPoint_eq_find detections x y) ▸ hd)
      have hrw : handleMouseDown detections x y S = toggleSelection S d.id := by
        simp [handleMouseDown, hd]
      rw [hrw]
      intro i hi
      by_cases hmem : d.id ∈ S
      · have h1 : toggleSelection S d.id = S.erase d.id := if_pos hmem
        rw [h1] at hi
        exact hS i (Finset.mem_of_mem_erase hi)
      · have h1 : toggleSelection S d.id = insert d.id S := if_neg hmem
        rw [h1] at hi
        rcases Finset.mem_insert.mp hi with h1 | h2
        · exact ⟨d, hdm, h1.symm⟩
        · exact hS i h2
  · intro s i hi
    simp [pageUnselectAll] at hi

/-- Witness for C9: with the two sample detections loaded and `{1}`
selected, a click at `(25, 55)` (inside the box of detection 0) preserves
the invariant. -/
theorem selection_state_invariant_witness :
    selInvariant [sampleDetection0, sampleDetection1]
      (handleMouseDown [sampleDetection0, sampleDetection1] 25 55 {1}) :=
  (selection_state_invariant [sampleDetection0, sampleDetection1] 25 55).2.2.1
    {1} (by unfold selInvariant; decide)

/-- The response handler only rewrites `matchingImageUrl` and
`geminiResponse`: the loaded detection list always passes through. -/
theorem handleSubmitResponse_detections_eq (backendUrl : String)
    (data : SelectResponse) (s : PageState) :
    (handleSubmitResponse backendUrl data s).detections = s.detections := by
  have hg : ∀ (gr : Option GeminiResponse) (t : PageState),
      (applyGemini gr t).detections = t.detections := by
    intro gr t
    cases gr with
    | none => rfl
    | some g => by_cases he : strTruthy g.explanation = true <;> simp [applyGemini, he]
  unfold handleSubmitResponse
  split
  · split <;> rw [hg]
  · rfl

/-- Claim C7: the detection list is immutable after load: every user
interaction on the selection page (mouse-down toggle, mouse-move hover,
mouse-leave, unselect-all, submit) leaves the detections array unchanged;
the handlers mutate only the selection, hover, submitting and result
state. -/
theorem page_handlers_preserve_detections (s : PageState) (x y : ℚ)
    (backendUrl : String) (data : SelectResponse) :
    (pageMouseDown s x y).detections = s.detections ∧
    (pageMouseMove s x y).detections = s.detections ∧
    (pageMouseLeave s).detections = s.detections ∧
    (pageUnselectAll s).detections = s.detections ∧
    (pageSubmit backendUrl data s).detections = s.detections := by
  refine ⟨rfl, rfl, rfl, rfl, ?_⟩
  unfold pageSubmit
  by_cases h : s.selectedIds.card = 0
  · simp [h]
  · simp [h, handleSubmitResponse_detections_eq]

/-- Claim C2: for every non-empty selection, the body POSTed to
`/select/{id}` has exactly the four fields of `SelectRequest`, where
`selected_detections` is the in-order sublist of the loaded detections
whose id is selected, `all_detections` is the complete loaded list,
`selected_ids` enumerates exactly the elements of the selection set
without duplicates, and `image_base64` is the stripped base image. -/
theorem handleSubmit_request_fields (detections : List Detection)
    (selectedIds : Finset ℕ) (imageUrl : String) (h : selectedIds ≠ ∅) :
    ∃ body, handleSubmitRequest detections selectedIds imageUrl = some body ∧
      body.selected_detections
        = detections.filter (fun d => decide (d.id ∈ selectedIds)) ∧
      body.selected_detections.Sublist detections ∧
      (∀ d, d ∈ body.selected_detections ↔ d ∈ detections ∧ d.id ∈ selectedIds) ∧
      body.all_detections = detections ∧
      (∀ i, i ∈ body.selected_ids ↔ i ∈ selectedIds) ∧
      body.selected_ids.Nodup ∧
      body.image_base64 = getBase64Image imageUrl := by
  have hcard : ¬ selectedIds.card = 0 := by
    simpa [Finset.card_eq_zero] using h
  refine ⟨buildSelectRequest detections selectedIds imageUrl,
    ?_, rfl, ?_, ?_, rfl, ?_, ?_, rfl⟩
  · simp [handleSubmitRequest, hcard]
  · exact List.filter_sublist detections
  · intro d
    simp [buildSelectRequest, List.mem_filter]
  · intro i
    simp [buildSelectRequest, Finset.mem_sort]
  · exact Finset.sort_nodup _ _

/-- Witness for C2: the concrete submission with detections 0 and 1 loaded
and only id 1 selected. -/
theorem handleSubmit_request_fields_witness :
    ∃ body, handleSubmitRequest [sampleDetection0, sampleDetection1] {1}
        (dataUri "QUJD") = some body ∧
      body.selected_detections
        = [sampleDetection0, sampleDetection1].filter
            (fun d => decide (d.id ∈ ({1} : Finset ℕ))) ∧
      body.selected_detections.Sublist [sampleDetection0, sampleDetection1] ∧
      (∀ d, d ∈ body.selected_detections ↔
        d ∈ [sampleDetection0, sampleDetection1] ∧ d.id ∈ ({1} : Finset ℕ)) ∧
      body.all_detections = [sampleDetection0, sampleDetection1] ∧
      (∀ i, i ∈ body.selected_ids ↔ i ∈ ({1} : Finset ℕ)) ∧
      body.selected_ids.Nodup ∧
      body.image_base64 = getBase64Image (dataUri "QUJD") :=
  handleSubmit_request_fields [sampleDetection0, sampleDetection1] {1}
    (dataUri "QUJD") (by decide)

/-- Claim C3: a submission with an empty selection is rejected
synchronously on the client with no side effects: no request is built, the
page state is left untouched, and the submit button is disabled. -/
theorem handleSubmit_empty_selection_no_request (detections : List Detection)
    (imageUrl backendUrl : String) (data : SelectResponse) (s : PageState)
    (h : s.selectedIds = ∅) :
    handleSubmitRequest detections ∅ imageUrl = none ∧
    pageSubmit backendUrl data s = s ∧
    submitDisabled s = true := by
  have hcard : s.selectedIds.card = 0 := by simp [h]
  refine ⟨by simp [handleSubmitRequest], ?_, ?_⟩
  · unfold pageSubmit
    rw [if_pos hcard]
  · unfold submitDisabled
    simp [hcard]

/-- Witness for C3 at the sample page state, whose selection is empty. -/
theorem handleSubmit_empty_selection_no_request_witness :
    handleSubmitRequest [sampleDetection0, sampleDetection1] ∅
      (dataUri "QUJD") = none ∧
    pageSubmit "http://localhost:8000" sampleMatchResponse samplePageState
      = samplePageState ∧
    submitDisabled samplePageState = true :=
  handleSubmit_empty_selection_no_request [sampleDetection0, sampleDetection1]
    (dataUri "QUJD") "http://localhost:8000" sampleMatchResponse
    samplePageState rfl

/-- Claim C6: for every successful selection response with `is_match` true
and a filename present, the client displays the existing route via the URL
`backendUrl ++ "/routes/images/" ++ filename` with the filename taken
verbatim from the response, and records the explanation from
`gemini_response` when one is present. -/
theorem handleSubmitResponse_match_shows_existing_route
    (backendUrl : String) (data : SelectResponse) (s : PageState) (f : String)
    (hs : data.success = true) (hm : data.is_match = true)
    (hf : data.matching_image_filename = some f) (hfne : f ≠ "") :
    (handleSubmitResponse backendUrl data s).matchingImageUrl
      = backendUrl ++ "/routes/images/" ++ f ∧
    (∀ g e, data.gemini_response = some g → g.explanation = some e → e ≠ "" →
      (handleSubmitResponse backendUrl data s).geminiResponse = some e) := by
  have htf : strTruthy (some f) = true := by
    simp [strTruthy, hfne]
  constructor
  · cases hg : data.gemini_response with
    | none => simp [handleSubmitResponse, hs, hm, hf, htf, applyGemini, hg]
    | some g =>
      by_cases he : strTruthy g.explanation = true <;>
        simp [handleSubmitResponse, hs, hm, hf, htf, applyGemini, hg, he]
  · intro g e hg hee hene
    have he : strTruthy g.explanation = true := by
      simp [hee, strTruthy, hene]
    have hv : explanationValue g = e := by
      unfold explanationValue
      rw [he]
      simp [hee]
    simp [handleSubmitResponse, hs, hm, hf, htf, applyGemini, hg, he, hv]

/-- Witness for C6 at the sample matched response. -/
theorem handleSubmitResponse_match_shows_existing_route_witness :
    (handleSubmitResponse "http://localhost:8000" sampleMatchResponse
        samplePageState).matchingImageUrl
      = "http://localhost:8000" ++ "/routes/images/"
        ++ "blue_20251011_120000_abcd.jpg" ∧
    (handleSubmitResponse "http://localhost:8000" sampleMatchResponse
        samplePageState).geminiResponse = some "Same holds highlighted." :=
  ⟨(handleSubmitResponse_match_shows_existing_route "http://localhost:8000"
      sampleMatchResponse samplePageState "blue_20251011_120000_abcd.jpg"
      rfl rfl rfl (by decide)).1,
   (handleSubmitResponse_match_shows_existing_route "http://localhost:8000"
      sampleMatchResponse samplePageState "blue_20251011_120000_abcd.jpg"
      rfl rfl rfl (by decide)).2
     ⟨some "Same holds highlighted.", none⟩ "Same holds highlighted."
     rfl rfl (by decide)⟩

/-- Counterexample to claim C5: for the concrete bounding box touching the
top edge (y1 = 0, inside the 1024-pixel image bounds), the label
background drawn by `drawCanvas` at `(x1, y1 - 20)` and the label text at
`(x1 + 5, y1 - 5)` both extend above the canvas: `drawCanvas` performs no
clamping. -/
theorem drawCanvas_label_escapes_top_edge :
    (0 : ℚ) ≤ topEdgeBox.y1 ∧ topEdgeBox.y1 ≤ 1024 ∧
    ¬ rectInCanvas 1024 1024 (labelBackgroundRect topEdgeBox) ∧
    ¬ pointInCanvas 1024 1024 (labelTextPos topEdgeBox) := by
  refine ⟨by norm_num [topEdgeBox], by norm_num [topEdgeBox], ?_, ?_⟩
  · intro hr
    have h2 := hr.2.1
    norm_num [labelBackgroundRect, topEdgeBox] at h2
  · intro hp
    have h3 := hp.2.2.1
    norm_num [labelTextPos, topEdgeBox] at h3

/-- Claim C5, amended: `drawCanvas` anchors the color label at fixed
offsets above the box with no clamping: the label background rectangle
`(x1, y1 - 20, 60, 20)` and label text `(x1 + 5, y1 - 5)` lie within the
canvas whenever the box top is at least the 20-pixel label height below
the top edge (and the 60-pixel-wide label fits horizontally), while every
box with y1 below 20 has its label background extend above the canvas. -/
theorem drawCanvas_label_in_bounds_iff (W H : ℚ) (b : BoundingBox)
    (hx0 : 0 ≤ b.x1) (hxW : b.x1 + 60 ≤ W)
    (hy20 : 20 ≤ b.y1) (hyH : b.y1 ≤ H) :
    rectInCanvas W H (labelBackgroundRect b) ∧
    pointInCanvas W H (labelTextPos b) ∧
    (∀ b2 : BoundingBox, b2.y1 < 20 →
      ¬ rectInCanvas W H (labelBackgroundRect b2)) := by
  refine ⟨?_, ?_, ?_⟩
  · simp only [rectInCanvas, labelBackgroundRect]
    refine ⟨hx0, by linarith, by linarith, by linarith⟩
  · simp only [pointInCanvas, labelTextPos]
    refine ⟨by linarith, by linarith, by linarith, by linarith⟩
  · intro b2 hb2 hr
    simp only [rectInCanvas, labelBackgroundRect] at hr
    linarith [hr.2.1]

/-- Witness for the amended C5: a box 100 pixels below the top keeps its
label inside a 1024-square canvas, and the top-edge box does not. -/
theorem drawCanvas_label_in_bounds_iff_witness :
    rectInCanvas 1024 1024 (labelBackgroundRect midBox) ∧
    pointInCanvas 1024 1024 (labelTextPos midBox) ∧
    ¬ rectInCanvas 1024 1024 (labelBackgroundRect topEdgeBox) :=
  ⟨(drawCanvas_label_in_bounds_iff 1024 1024 midBox (by norm_num [midBox])
      (by norm_num [midBox]) (by norm_num [midBox]) (by norm_num [midBox])).1,
   (drawCanvas_label_in_bounds_iff 1024 1024 midBox (by norm_num [midBox])
      (by norm_num [midBox]) (by norm_num [midBox]) (by norm_num [midBox])).2.1,
   (drawCanvas_label_in_bounds_iff 1024 1024 midBox (by norm_num [midBox])
      (by norm_num [midBox]) (by norm_num [midBox]) (by norm_num [midBox])).2.2
     topEdgeBox (by norm_num [topEdgeBox])⟩
